import Mathlib

/-!
Shallow embedding of the LEAP KeyManager (src/leap/keymanager/__init__.py).

The embedded operations are get_key, _fetch_keys_from_server, _get, _put,
send_key, get_all_keys_in_local_db, refresh_keys and the four dispatcher
operations encrypt/decrypt/sign/verify.  External collaborators (the
OpenPGP scheme backend with its local store, the HTTP transport and the
nickserver directory) are modelled at their interface boundary as stated
in the design document.  Stateful methods are embedded as functions
threading an explicit state (the local key store plus logs of the GET and
PUT requests issued, which let us state zero-network-call properties);
fallible methods return Except.
-/

/-- Key type tags.  The source dispatches on concrete key classes and its
registry maps only OpenPGPKey; otherType stands for any key class that is
not in the wrapper map. -/
inductive KeyType where
| openpgp : KeyType
| otherType : Nat → KeyType
deriving DecidableEq

/-- String representation of a key class, used in the unknown-key-type
assertion message of get_key. -/
def KeyType.str : KeyType → String
| KeyType.openpgp => "OpenPGPKey"
| KeyType.otherType n => "OtherKey" ++ toString n

/-- An encryption key as the manager sees it: bound address, opaque key
material, role flag and concrete type tag. -/
structure EncryptionKey where
  address : String
  keyData : String
  priv : Bool
  ktype : KeyType
deriving DecidableEq

/-- The fixed scheme registry, embedding the wrapper map built in the
constructor: only OpenPGPKey is mapped to a backend. -/
def wrapperMapContains (kt : KeyType) : Bool :=
  decide (kt = KeyType.openpgp)

/-- Failures surfaced to the caller: KeyNotFound from a backend store
lookup, a failed leap_assert with its message, or a transport-level
failure (non-2xx status or connection/certificate error). -/
inductive KMError where
| keyNotFound : KMError
| assertionFailed : String → KMError
| transportFailure : KMError
deriving DecidableEq

/-- A parsed HTTP response from the nickserver: status code, content-type
header and the decoded JSON object, a map from key-type names to
serialized key material. -/
structure HttpResponse where
  status : Nat
  contentType : String
  body : List (String × String)
deriving DecidableEq

/-- Result of a transport-level GET: a connection or certificate failure,
or a response. -/
inductive TransportResult where
| failure : TransportResult
| response : HttpResponse → TransportResult

/-- External collaborators, modelled at their interface boundary: the
nickserver directory as a function of the address query parameter, the
OpenPGP backend parser applied to raw material by put_ascii_key, and
whether the provider accepts the authenticated PUT. -/
structure World where
  server : String → TransportResult
  parse : String → Option EncryptionKey
  putOk : Bool

/-- The KeyManager configuration fixed at construction (session id and the
other optional fields may also be set later through properties; each
operation reads the value current at call time, which this embedding
passes in). -/
structure KMConfig where
  address : String
  nickserverUri : String
  sessionId : Option String
  caCertPath : Option String
  apiUri : Option String
  apiVersion : Option String
  uid : Option String

/-- Mutable state threaded through the operations: the local key store
shared by the backends, plus logs of the network requests issued (the
address of each nickserver GET, the URI of each provider PUT). -/
structure St where
  store : List EncryptionKey
  getLog : List String
  putLog : List String
deriving DecidableEq

/-- Modelled from the spec: the Backend local-store contract, which is not
under src/ (get(address, private) returns a key or NotFound).  The backend
registered for a type returns the first stored key of that type matching
the address and role. -/
def localGet (store : List EncryptionKey) (kt : KeyType) (addr : String)
    (priv : Bool) : Option EncryptionKey :=
  store.find? (fun k => k.ktype == kt && k.address == addr && k.priv == priv)

/-- Modelled from the spec: OpenPGPScheme.put_ascii_key, which is not
under src/.  The backend parses the raw material; on success the local
store gains/updates one public key of the backend type, replacing any
stored key with the same type, address and role.  The bound address comes
from the parsed material alone. -/
def putAscii (w : World) (store : List EncryptionKey) (material : String) :
    List EncryptionKey :=
  match w.parse material with
  | none => store
  | some k =>
      let k2 : EncryptionKey :=
        { k with ktype := KeyType.openpgp, priv := false }
      k2 :: store.filter (fun j =>
        !(j.ktype == k2.ktype && j.address == k2.address && j.priv == k2.priv))

/-- Lookup of a field in a decoded JSON object. -/
def lookupEntry (body : List (String × String)) (name : String) :
    Option String :=
  (body.find? (fun p => p.1 == name)).map Prod.snd

/-- Python str.startswith, used by _get on the content-type header,
embedded as a prefix check on the character lists. -/
def pyStartswith (s pre : String) : Bool :=
  pre.data.isPrefixOf s.data

/-- Embedding of KeyManager._get: assert that the CA certificate path is
configured, issue the GET (recorded in the log) verified against it,
raise_for_status per the transport contract (any non-2xx status is a
failure), then assert the application/json content type. -/
def kmGet (cfg : KMConfig) (w : World) (addr : String) (s : St) :
    Except KMError HttpResponse × St :=
  match cfg.caCertPath with
  | none =>
      (Except.error (KMError.assertionFailed "We need the CA certificate path!"), s)
  | some _ =>
      let s1 : St := { s with getLog := s.getLog ++ [addr] }
      match w.server addr with
      | TransportResult.failure => (Except.error KMError.transportFailure, s1)
      | TransportResult.response r =>
          if 200 ≤ r.status ∧ r.status < 300 then
            if pyStartswith r.contentType "application/json" then
              (Except.ok r, s1)
            else
              (Except.error (KMError.assertionFailed "Content-type is not JSON."), s1)
          else
            (Except.error KMError.transportFailure, s1)

/-- Embedding of KeyManager._put: assert that the CA certificate path is
configured, then that a session id is present, then issue the
authenticated PUT (recorded in the log) and raise_for_status. -/
def kmPut (cfg : KMConfig) (w : World) (uri : String) (s : St) :
    Except KMError Unit × St :=
  match cfg.caCertPath with
  | none =>
      (Except.error (KMError.assertionFailed "We need the CA certificate path!"), s)
  | some _ =>
      match cfg.sessionId with
      | none =>
          (Except.error (KMError.assertionFailed "We need a session_id to interact with webapp!"), s)
      | some _ =>
          let s1 : St := { s with putLog := s.putLog ++ [uri] }
          if w.putOk then (Except.ok (), s1)
          else (Except.error KMError.transportFailure, s1)

/-- Embedding of KeyManager._fetch_keys_from_server: GET the nickserver
with the address as query data; if the returned JSON object contains an
openpgp entry, pass that raw material to the OpenPGP backend for import
into the local store, otherwise return normally without touching it. -/
def fetch_keys_from_server (cfg : KMConfig) (w : World) (addr : String)
    (s : St) : Except KMError Unit × St :=
  match kmGet cfg w addr s with
  | (Except.error e, s1) => (Except.error e, s1)
  | (Except.ok r, s1) =>
      match lookupEntry r.body "openpgp" with
      | none => (Except.ok (), s1)
      | some material =>
          (Except.ok (), { s1 with store := putAscii w s1.store material })

/-- Embedding of KeyManager.get_key: assert the key type is registered,
try the local store, and on KeyNotFound either re-raise it unmodified
(when fetch_remote is false or private is true) or fetch from the
nickserver and retry the local lookup for the public key only. -/
def get_key (cfg : KMConfig) (w : World) (addr : String) (kt : KeyType)
    (priv : Bool) (fetchRemote : Bool) (s : St) :
    Except KMError EncryptionKey × St :=
  if wrapperMapContains kt = false then
    (Except.error (KMError.assertionFailed ("Unkown key type: " ++ kt.str ++ ".")), s)
  else
    match localGet s.store kt addr priv with
    | some k => (Except.ok k, s)
    | none =>
        if fetchRemote = false ∨ priv = true then
          (Except.error KMError.keyNotFound, s)
        else
          match fetch_keys_from_server cfg w addr s with
          | (Except.error e, s1) => (Except.error e, s1)
          | (Except.ok _, s1) =>
              match localGet s1.store kt addr false with
              | some k => (Except.ok k, s1)
              | none => (Except.error KMError.keyNotFound, s1)

/-- Python string interpolation of an optional configuration value, as in
the send_key URI format string: None prints as the string None. -/
def pystr : Option String → String
| none => "None"
| some v => v

/-- Embedding of KeyManager.send_key: assert the type is OpenPGPKey, look
up the own public key with fetch_remote false, then PUT its material to
the provider user endpoint. -/
def send_key (cfg : KMConfig) (w : World) (kt : KeyType) (s : St) :
    Except KMError Unit × St :=
  if kt = KeyType.openpgp then
    match get_key cfg w cfg.address kt false false s with
    | (Except.error e, s1) => (Except.error e, s1)
    | (Except.ok _pubkey, s1) =>
        let uri := pystr cfg.apiUri ++ "/" ++ pystr cfg.apiVersion
          ++ "/users/" ++ pystr cfg.uid ++ ".json"
        kmPut cfg w uri s1
  else
    (Except.error (KMError.assertionFailed "For now we only know how to send OpenPGP public keys."), s)

/-- Embedding of KeyManager.get_all_keys_in_local_db: every stored
document tagged with the given role, rehydrated through the registry.  A
stored tag matching no registered class makes the whole rehydration fail
(the source pops from an empty filter result), modelled as none. -/
def get_all_keys_in_local_db (s : St) (priv : Bool) :
    Option (List EncryptionKey) :=
  let docs := s.store.filter (fun k => k.priv == priv)
  if docs.all (fun k => wrapperMapContains k.ktype) then some docs else none

/-- Distinct addresses keeping first occurrences; the python set iteration
order is unspecified, and no stated property depends on the order. -/
def dedupFirst : List String → List String
| [] => []
| a :: rest => a :: (dedupFirst rest).filter (fun b => !(b == a))

/-- The loop body of refresh_keys: fetch each address from the
nickserver, skipping the own address; an exception from one fetch
propagates and aborts the remaining iterations, as in the source. -/
def refreshLoop (cfg : KMConfig) (w : World) (addrs : List String)
    (s : St) : Except KMError Unit × St :=
  match addrs with
  | [] => (Except.ok (), s)
  | a :: rest =>
      if a = cfg.address then refreshLoop cfg w rest s
      else
        match fetch_keys_from_server cfg w a s with
        | (Except.error e, s1) => (Except.error e, s1)
        | (Except.ok _, s1) => refreshLoop cfg w rest s1

/-- Embedding of KeyManager.refresh_keys: collect the distinct addresses
of all locally stored public keys, then fetch each one except the own
address. -/
def refresh_keys (cfg : KMConfig) (w : World) (s : St) :
    Except KMError Unit × St :=
  match get_all_keys_in_local_db s false with
  | none =>
      (Except.error (KMError.assertionFailed "unregistered key type in local db"), s)
  | some keys =>
      refreshLoop cfg w (dedupFirst (keys.map EncryptionKey.address)) s

/-- The four dispatcher operations. -/
inductive BackendOp where
| encryptOp : BackendOp
| decryptOp : BackendOp
| signOp : BackendOp
| verifyOp : BackendOp
deriving DecidableEq

/-- A call forwarded to a scheme backend: the operation, the registry key
it was routed through (the class of the supplied key), the key itself and
the data.  Producing one of these is the only way the dispatcher reaches
a backend. -/
structure BackendCall where
  op : BackendOp
  registryKey : KeyType
  key : EncryptionKey
  data : String
deriving DecidableEq

/-- Embedding of KeyManager.encrypt: the Python type assertion is vacuous
in the typed model; then assert the key class is registered, then that
the key is public, then forward to the backend of the key class. -/
def encrypt (data : String) (pubkey : EncryptionKey) :
    Except KMError BackendCall :=
  if wrapperMapContains pubkey.ktype = false then
    Except.error (KMError.assertionFailed "Unknown key type.")
  else if pubkey.priv = true then
    Except.error (KMError.assertionFailed "Key is not public.")
  else
    Except.ok { op := BackendOp.encryptOp, registryKey := pubkey.ktype,
                key := pubkey, data := data }

/-- Embedding of KeyManager.decrypt: assert the key class is registered,
then that the key is private, then forward. -/
def decrypt (data : String) (privkey : EncryptionKey) :
    Except KMError BackendCall :=
  if wrapperMapContains privkey.ktype = false then
    Except.error (KMError.assertionFailed "Unknown key type.")
  else if privkey.priv = false then
    Except.error (KMError.assertionFailed "Key is not private.")
  else
    Except.ok { op := BackendOp.decryptOp, registryKey := privkey.ktype,
                key := privkey, data := data }

/-- Embedding of KeyManager.sign: assert the key class is registered,
then that the key is private, then forward. -/
def sign (data : String) (privkey : EncryptionKey) :
    Except KMError BackendCall :=
  if wrapperMapContains privkey.ktype = false then
    Except.error (KMError.assertionFailed "Unknown key type.")
  else if privkey.priv = false then
    Except.error (KMError.assertionFailed "Key is not private.")
  else
    Except.ok { op := BackendOp.signOp, registryKey := privkey.ktype,
                key := privkey, data := data }

/-- Embedding of KeyManager.verify: assert the key class is registered,
then that the key is public, then forward. -/
def verify (data : String) (pubkey : EncryptionKey) :
    Except KMError BackendCall :=
  if wrapperMapContains pubkey.ktype = false then
    Except.error (KMError.assertionFailed "Unknown key type.")
  else if pubkey.priv = true then
    Except.error (KMError.assertionFailed "Key is not public.")
  else
    Except.ok { op := BackendOp.verifyOp, registryKey := pubkey.ktype,
                key := pubkey, data := data }

/-!
Concrete fixtures used by the witnesses.
-/

/-- A fully configured manager. -/
def cfgT : KMConfig :=
  { address := "me@leap", nickserverUri := "https://nick", sessionId := some "sess",
    caCertPath := some "/ca.crt", apiUri := some "https://api",
    apiVersion := some "1", uid := some "uid1" }

/-- A successful nickserver response carrying an openpgp entry. -/
def respT : HttpResponse :=
  { status := 200, contentType := "application/json",
    body := [("openpgp", "KEYBLOB")] }

/-- A world whose directory always answers with respT and whose backend
parses any material into a key bound to the alice address. -/
def wT : World :=
  { server := fun _ => TransportResult.response respT,
    parse := fun m =>
      some { address := "alice@leap", keyData := m, priv := false,
             ktype := KeyType.openpgp },
    putOk := true }

/-- A world whose transport always fails. -/
def wFail : World :=
  { server := fun _ => TransportResult.failure,
    parse := fun _ => none,
    putOk := true }

/-- Empty local state. -/
def sEmpty : St := { store := [], getLog := [], putLog := [] }

/-- A stored public key for alice. -/
def keyPub : EncryptionKey :=
  { address := "alice@leap", keyData := "KEYBLOB", priv := false,
    ktype := KeyType.openpgp }

/-- A key of an unregistered class. -/
def keyBad : EncryptionKey :=
  { address := "alice@leap", keyData := "KEYBLOB", priv := false,
    ktype := KeyType.otherType 0 }

/-- State holding only the alice public key. -/
def sOne : St := { store := [keyPub], getLog := [], putLog := [] }

/-!
Claim theorems.
-/

/-- C9: get_key called with a key type that has no registered backend
fails with the unknown-key-type assertion for every world, store and
flag combination: the result does not depend on the store or the world,
no lookup or network call happens, and the state is returned unchanged. -/
theorem get_key_unknown_type (cfg : KMConfig) (w : World) (a : String)
    (kt : KeyType) (priv fr : Bool) (s : St)
    (h : wrapperMapContains kt = false) :
    get_key cfg w a kt priv fr s =
      (Except.error (KMError.assertionFailed ("Unkown key type: " ++ kt.str ++ ".")), s) := by
  simp [get_key, h]

/-- Witness for C9 at the unregistered type otherType 0. -/
theorem get_key_unknown_type_witness :
    get_key cfgT wT "alice@leap" (KeyType.otherType 0) false true sEmpty =
      (Except.error (KMError.assertionFailed
        ("Unkown key type: " ++ (KeyType.otherType 0).str ++ ".")), sEmpty) :=
  get_key_unknown_type cfgT wT "alice@leap" (KeyType.otherType 0) false true
    sEmpty (by decide)

/-- C7: when a public key for the address is in the local store, get_key
with private false returns it directly for either value of fetch_remote,
with the whole state (store and both network logs) unchanged. -/
theorem get_key_local_hit (cfg : KMConfig) (w : World) (a : String)
    (kt : KeyType) (fr : Bool) (s : St) (k : EncryptionKey)
    (hreg : wrapperMapContains kt = true)
    (hhit : localGet s.store kt a false = some k) :
    get_key cfg w a kt false fr s = (Except.ok k, s) := by
  simp [get_key, hreg, hhit]

/-- Witness for C7 on a store holding the alice public key. -/
theorem get_key_local_hit_witness :
    get_key cfgT wFail "alice@leap" KeyType.openpgp false true sOne =
      (Except.ok keyPub, sOne) :=
  get_key_local_hit cfgT wFail "alice@leap" KeyType.openpgp true sOne keyPub
    (by decide) (by decide)

/-- C2: with private true or with fetch_remote false, get_key performs no
network call for any world: the state (store, GET log, PUT log) is
returned unchanged, and on a local miss the KeyNotFound failure is
propagated unmodified. -/
theorem get_key_no_remote (cfg : KMConfig) (w : World) (a : String)
    (kt : KeyType) (priv fr : Bool) (s : St)
    (hreg : wrapperMapContains kt = true)
    (hnf : priv = true ∨ fr = false) :
    (get_key cfg w a kt priv fr s).2 = s ∧
    (localGet s.store kt a priv = none →
      (get_key cfg w a kt priv fr s).1 = Except.error KMError.keyNotFound) := by
  rcases hnf with hp | hf
  · subst hp
    rcases hlook : localGet s.store kt a true with _ | k <;>
      simp [get_key, hreg, hlook]
  · subst hf
    rcases hlook : localGet s.store kt a priv with _ | k <;>
      simp [get_key, hreg, hlook]

/-- Witness for C2: a private lookup misses on the empty store with a
live remote directory, yet fails with KeyNotFound and an unchanged
state. -/
theorem get_key_no_remote_witness :
    (get_key cfgT wT "alice@leap" KeyType.openpgp true true sEmpty).2 = sEmpty ∧
    (get_key cfgT wT "alice@leap" KeyType.openpgp true true sEmpty).1 =
      Except.error KMError.keyNotFound := by
  have h := get_key_no_remote cfgT wT "alice@leap" KeyType.openpgp true true
    sEmpty (by decide) (Or.inl rfl)
  exact ⟨h.1, h.2 rfl⟩

/-- C3: each of the four dispatcher operations fails with the
unknown-key-type assertion when the key class is not in the registry,
fails with the role assertion when the role flag violates its
precondition, producing no backend call in either case, and only when
both checks pass forwards to the backend registered for the key class. -/
theorem dispatcher_checks (d : String) (k : EncryptionKey) :
    (wrapperMapContains k.ktype = false →
      encrypt d k = Except.error (KMError.assertionFailed "Unknown key type.") ∧
      decrypt d k = Except.error (KMError.assertionFailed "Unknown key type.") ∧
      sign d k = Except.error (KMError.assertionFailed "Unknown key type.") ∧
      verify d k = Except.error (KMError.assertionFailed "Unknown key type.")) ∧
    (wrapperMapContains k.ktype = true → k.priv = true →
      encrypt d k = Except.error (KMError.assertionFailed "Key is not public.") ∧
      verify d k = Except.error (KMError.assertionFailed "Key is not public.") ∧
      decrypt d k = Except.ok ⟨BackendOp.decryptOp, k.ktype, k, d⟩ ∧
      sign d k = Except.ok ⟨BackendOp.signOp, k.ktype, k, d⟩) ∧
    (wrapperMapContains k.ktype = true → k.priv = false →
      decrypt d k = Except.error (KMError.assertionFailed "Key is not private.") ∧
      sign d k = Except.error (KMError.assertionFailed "Key is not private.") ∧
      encrypt d k = Except.ok ⟨BackendOp.encryptOp, k.ktype, k, d⟩ ∧
      verify d k = Except.ok ⟨BackendOp.verifyOp, k.ktype, k, d⟩) := by
  refine ⟨fun h => ?_, fun h hp => ?_, fun h hp => ?_⟩ <;>
    simp [encrypt, decrypt, sign, verify, h, *]

/-- Witness for C3: an unregistered key class is rejected by encrypt, and
a public key is rejected by sign. -/
theorem dispatcher_checks_witness :
    encrypt "m" keyBad = Except.error (KMError.assertionFailed "Unknown key type.") ∧
    sign "m" keyPub = Except.error (KMError.assertionFailed "Key is not private.") :=
  ⟨((dispatcher_checks "m" keyBad).1 (by decide)).1,
   ((dispatcher_checks "m" keyPub).2.2 (by decide) (by decide)).2.1⟩

/-- C5: send_key rejects any key type other than OpenPGPKey with an
assertion, and with no locally stored public key for the own address it
fails with the KeyNotFound propagated from the fetch_remote-false
lookup, with the state (and in particular the PUT log) unchanged. -/
theorem send_key_checks (cfg : KMConfig) (w : World) (kt : KeyType) (s : St) :
    (kt ≠ KeyType.openpgp →
      send_key cfg w kt s =
        (Except.error (KMError.assertionFailed
          "For now we only know how to send OpenPGP public keys."), s)) ∧
    (localGet s.store KeyType.openpgp cfg.address false = none →
      send_key cfg w KeyType.openpgp s = (Except.error KMError.keyNotFound, s)) := by
  constructor
  · intro h
    simp [send_key, h]
  · intro hmiss
    have hkey : get_key cfg w cfg.address KeyType.openpgp false false s =
        (Except.error KMError.keyNotFound, s) := by
      simp [get_key, wrapperMapContains, hmiss]
    simp [send_key, hkey]

/-- Witness for C5 on the empty store: KeyNotFound without a PUT. -/
theorem send_key_checks_witness :
    send_key cfgT wT KeyType.openpgp sEmpty =
      (Except.error KMError.keyNotFound, sEmpty) :=
  (send_key_checks cfgT wT KeyType.openpgp sEmpty).2 rfl

/-- C8: precondition failures happen before any I/O: _get with no CA
certificate path fails its assertion with no request logged, _put with no
CA certificate path or no session id fails its assertion with no request
logged, and send_key with either credential absent fails with the state
returned exactly unchanged, so the PUT is never issued and no partial
side effect remains. -/
theorem precondition_failures_before_io (cfg : KMConfig) (w : World)
    (a uri : String) (s : St) :
    (cfg.caCertPath = none →
      kmGet cfg w a s =
        (Except.error (KMError.assertionFailed "We need the CA certificate path!"), s) ∧
      kmPut cfg w uri s =
        (Except.error (KMError.assertionFailed "We need the CA certificate path!"), s)) ∧
    (cfg.caCertPath ≠ none → cfg.sessionId = none →
      kmPut cfg w uri s =
        (Except.error (KMError.assertionFailed
          "We need a session_id to interact with webapp!"), s)) ∧
    (cfg.sessionId = none ∨ cfg.caCertPath = none →
      ∃ e, send_key cfg w KeyType.openpgp s = (Except.error e, s)) := by
  refine ⟨fun hca => ?_, fun hca hs => ?_, fun hcred => ?_⟩
  · constructor <;> simp [kmGet, kmPut, hca]
  · rcases hc : cfg.caCertPath with _ | p
    · exact absurd hc hca
    · simp [kmPut, hc, hs]
  · rcases hlook : localGet s.store KeyType.openpgp cfg.address false with _ | k
    · refine ⟨KMError.keyNotFound, ?_⟩
      have hkey : get_key cfg w cfg.address KeyType.openpgp false false s =
          (Except.error KMError.keyNotFound, s) := by
        simp [get_key, wrapperMapContains, hlook]
      simp [send_key, hkey]
    · have hkey : get_key cfg w cfg.address KeyType.openpgp false false s =
          (Except.ok k, s) := by
        simp [get_key, wrapperMapContains, hlook]
      rcases hc : cfg.caCertPath with _ | p
      · exact ⟨KMError.assertionFailed "We need the CA certificate path!",
          by simp [send_key, hkey, kmPut, hc]⟩
      · rcases hcred with hs | hca2
        · exact ⟨KMError.assertionFailed "We need a session_id to interact with webapp!",
            by simp [send_key, hkey, kmPut, hc, hs]⟩
        · exact absurd hc (by simp [hca2])

/-- Configuration with both credentials absent. -/
def cfgNoCreds : KMConfig :=
  { cfgT with caCertPath := none, sessionId := none }

/-- Witness for C8: without the CA certificate path, _get fails its
assertion with the state unchanged. -/
theorem precondition_failures_before_io_witness :
    kmGet cfgNoCreds wT "alice@leap" sEmpty =
      (Except.error (KMError.assertionFailed "We need the CA certificate path!"), sEmpty) :=
  ((precondition_failures_before_io cfgNoCreds wT "alice@leap" "u" sEmpty).1 rfl).1

/-- C6: transport-level failures of the remote fetch (connection or
certificate failure, non-2xx status, non-JSON content type) propagate as
failures with the store untouched, while a successful JSON response with
no openpgp entry is not an error: the fetch returns normally and the
store is unchanged, so a subsequent local retry still misses. -/
theorem fetch_failure_modes (cfg : KMConfig) (w : World) (a : String)
    (s : St) (hca : cfg.caCertPath ≠ none) :
    (w.server a = TransportResult.failure →
      fetch_keys_from_server cfg w a s =
        (Except.error KMError.transportFailure,
         { s with getLog := s.getLog ++ [a] })) ∧
    (∀ r, w.server a = TransportResult.response r →
      ¬(200 ≤ r.status ∧ r.status < 300) →
      fetch_keys_from_server cfg w a s =
        (Except.error KMError.transportFailure,
         { s with getLog := s.getLog ++ [a] })) ∧
    (∀ r, w.server a = TransportResult.response r →
      (200 ≤ r.status ∧ r.status < 300) →
      pyStartswith r.contentType "application/json" = false →
      fetch_keys_from_server cfg w a s =
        (Except.error (KMError.assertionFailed "Content-type is not JSON."),
         { s with getLog := s.getLog ++ [a] })) ∧
    (∀ r, w.server a = TransportResult.response r →
      (200 ≤ r.status ∧ r.status < 300) →
      pyStartswith r.contentType "application/json" = true →
      lookupEntry r.body "openpgp" = none →
      fetch_keys_from_server cfg w a s =
        (Except.ok (), { s with getLog := s.getLog ++ [a] })) := by
  rcases hc : cfg.caCertPath with _ | p
  · exact absurd hc hca
  · refine ⟨fun hf => by simp [fetch_keys_from_server, kmGet, hc, hf],
      fun r hr hst => by simp [fetch_keys_from_server, kmGet, hc, hr, hst],
      fun r hr hst hct => by simp [fetch_keys_from_server, kmGet, hc, hr, hst, hct],
      fun r hr hst hct hlk => by simp [fetch_keys_from_server, kmGet, hc, hr, hst, hct, hlk]⟩

/-- Witness for C6: a failing transport propagates as a transport
failure with nothing imported. -/
theorem fetch_failure_modes_witness :
    fetch_keys_from_server cfgT wFail "bob@leap" sEmpty =
      (Except.error KMError.transportFailure,
       { sEmpty with getLog := sEmpty.getLog ++ ["bob@leap"] }) :=
  (fetch_failure_modes cfgT wFail "bob@leap" sEmpty (by simp [cfgT])).1 rfl

/-- C1: on a local miss for a public key with fetch_remote true, get_key
performs exactly one remote fetch (one GET logged, no PUT), the fetch
imports into the store exactly what the openpgp entry of the response
yields, and the result is a retry of the local lookup with private
false on the updated store: the found key, or KeyNotFound. -/
theorem get_key_remote_fallback (cfg : KMConfig) (w : World) (a : String)
    (kt : KeyType) (s : St) (r : HttpResponse) (p : String)
    (hreg : wrapperMapContains kt = true)
    (hmiss : localGet s.store kt a false = none)
    (hca : cfg.caCertPath = some p)
    (hresp : w.server a = TransportResult.response r)
    (hst : 200 ≤ r.status ∧ r.status < 300)
    (hct : pyStartswith r.contentType "application/json" = true) :
    (get_key cfg w a kt false true s).2.getLog = s.getLog ++ [a] ∧
    (get_key cfg w a kt false true s).2.putLog = s.putLog ∧
    (get_key cfg w a kt false true s).2.store =
      (match lookupEntry r.body "openpgp" with
       | none => s.store
       | some m => putAscii w s.store m) ∧
    (get_key cfg w a kt false true s).1 =
      (match localGet (get_key cfg w a kt false true s).2.store kt a false with
       | some k => Except.ok k
       | none => Except.error KMError.keyNotFound) := by
  have hget2 : kmGet cfg w a s =
      (Except.ok r, { s with getLog := s.getLog ++ [a] }) := by
    simp [kmGet, hca, hresp, hst, hct]
  rcases hlk : lookupEntry r.body "openpgp" with _ | m
  · have hfetch : fetch_keys_from_server cfg w a s =
        (Except.ok (), { s with getLog := s.getLog ++ [a] }) := by
      simp [fetch_keys_from_server, hget2, hlk]
    have hmain : get_key cfg w a kt false true s =
        (Except.error KMError.keyNotFound, { s with getLog := s.getLog ++ [a] }) := by
      simp [get_key, hreg, hmiss, hfetch]
    simp [hmain, hlk, hmiss]
  · have hfetch : fetch_keys_from_server cfg w a s =
        (Except.ok (), { s with getLog := s.getLog ++ [a],
                                store := putAscii w s.store m }) := by
      simp [fetch_keys_from_server, hget2, hlk]
    rcases hretry : localGet (putAscii w s.store m) kt a false with _ | k
    · have hmain : get_key cfg w a kt false true s =
          (Except.error KMError.keyNotFound,
           { s with getLog := s.getLog ++ [a], store := putAscii w s.store m }) := by
        simp [get_key, hreg, hmiss, hfetch, hretry]
      simp [hmain, hlk, hretry]
    · have hmain : get_key cfg w a kt false true s =
          (Except.ok k,
           { s with getLog := s.getLog ++ [a], store := putAscii w s.store m }) := by
        simp [get_key, hreg, hmiss, hfetch, hretry]
      simp [hmain, hlk, hretry]

/-- Witness for C1: on the empty store the alice key is fetched from the
directory, imported, and returned by the retry; the GET log records the
single fetch. -/
theorem get_key_remote_fallback_witness :
    (get_key cfgT wT "alice@leap" KeyType.openpgp false true sEmpty).2.getLog =
      sEmpty.getLog ++ ["alice@leap"] :=
  (get_key_remote_fallback cfgT wT "alice@leap" KeyType.openpgp sEmpty respT
    "/ca.crt" (by decide) rfl rfl rfl (by decide) (by decide)).1

/-- C10: what a successful fetch imports is determined by the response
body alone: two fetches from the same state whose responses carry equal
openpgp entries produce equal stores and equal results, whatever the two
address arguments, which only reach the GET log and the query. -/
theorem fetch_import_ignores_address (cfg : KMConfig) (w : World)
    (a1 a2 : String) (s : St) (r1 r2 : HttpResponse) (p : String)
    (hca : cfg.caCertPath = some p)
    (h1 : w.server a1 = TransportResult.response r1)
    (h2 : w.server a2 = TransportResult.response r2)
    (hst1 : 200 ≤ r1.status ∧ r1.status < 300)
    (hst2 : 200 ≤ r2.status ∧ r2.status < 300)
    (hct1 : pyStartswith r1.contentType "application/json" = true)
    (hct2 : pyStartswith r2.contentType "application/json" = true)
    (hsame : lookupEntry r1.body "openpgp" = lookupEntry r2.body "openpgp") :
    (fetch_keys_from_server cfg w a1 s).2.store =
      (fetch_keys_from_server cfg w a2 s).2.store ∧
    (fetch_keys_from_server cfg w a1 s).1 =
      (fetch_keys_from_server cfg w a2 s).1 := by
  have hg1 : kmGet cfg w a1 s =
      (Except.ok r1, { s with getLog := s.getLog ++ [a1] }) := by
    simp [kmGet, hca, h1, hst1, hct1]
  have hg2 : kmGet cfg w a2 s =
      (Except.ok r2, { s with getLog := s.getLog ++ [a2] }) := by
    simp [kmGet, hca, h2, hst2, hct2]
  rcases hlk : lookupEntry r1.body "openpgp" with _ | m
  · have hlk2 : lookupEntry r2.body "openpgp" = none := by rw [← hsame, hlk]
    constructor <;>
      simp [fetch_keys_from_server, hg1, hg2, hlk, hlk2]
  · have hlk2 : lookupEntry r2.body "openpgp" = some m := by rw [← hsame, hlk]
    constructor <;>
      simp [fetch_keys_from_server, hg1, hg2, hlk, hlk2]

/-- Witness for C10: fetching two different addresses against a constant
directory imports the same key either way. -/
theorem fetch_import_ignores_address_witness :
    (fetch_keys_from_server cfgT wT "bob@leap" sEmpty).2.store =
      (fetch_keys_from_server cfgT wT "carol@leap" sEmpty).2.store :=
  (fetch_import_ignores_address cfgT wT "bob@leap" "carol@leap" sEmpty respT
    respT "/ca.crt" rfl rfl rfl (by decide) (by decide) (by decide) (by decide)
    rfl).1

/-- Membership in dedupFirst implies membership in the original list. -/
lemma mem_dedupFirst : ∀ (l : List String) (x : String),
    x ∈ dedupFirst l → x ∈ l := by
  intro l
  induction l with
  | nil => intro x hx; simp [dedupFirst] at hx
  | cons a rest ih =>
      intro x hx
      simp only [dedupFirst] at hx
      rcases List.mem_cons.mp hx with h | h
      · exact h ▸ List.mem_cons_self a rest
      · exact List.mem_cons_of_mem a (ih x (List.mem_of_mem_filter h))

/-- dedupFirst returns a list without duplicates. -/
lemma dedupFirst_nodup : ∀ l : List String, (dedupFirst l).Nodup := by
  intro l
  induction l with
  | nil => simp [dedupFirst]
  | cons a rest ih =>
      simp only [dedupFirst]
      refine List.nodup_cons.mpr ⟨?_, ih.filter _⟩
      intro hmem
      have := (List.mem_filter.mp hmem).2
      simp at this

/-- The refresh loop under a CA path and an always-successful directory:
it succeeds and its GET log grows by exactly the addresses of the list
other than the own address, in order. -/
lemma refreshLoop_spec (cfg : KMConfig) (w : World) (p : String)
    (hca : cfg.caCertPath = some p)
    (hok : ∀ a, ∃ r, w.server a = TransportResult.response r ∧
      (200 ≤ r.status ∧ r.status < 300) ∧
      pyStartswith r.contentType "application/json" = true) :
    ∀ (addrs : List String) (s : St),
      (refreshLoop cfg w addrs s).1 = Except.ok () ∧
      (refreshLoop cfg w addrs s).2.getLog =
        s.getLog ++ addrs.filter (fun a => !(a == cfg.address)) := by
  intro addrs
  induction addrs with
  | nil => intro s; simp [refreshLoop]
  | cons a rest ih =>
      intro s
      by_cases ha : a = cfg.address
      · have h2 := ih s
        subst ha
        exact ⟨by simpa [refreshLoop] using h2.1,
               by simpa [refreshLoop] using h2.2⟩
      · obtain ⟨r, hr, hst, hct⟩ := hok a
        have hget2 : kmGet cfg w a s =
            (Except.ok r, { s with getLog := s.getLog ++ [a] }) := by
          simp [kmGet, hca, hr, hst, hct]
        obtain ⟨st, hfetch, hlog⟩ :
            ∃ st, fetch_keys_from_server cfg w a s = (Except.ok (), st) ∧
              st.getLog = s.getLog ++ [a] := by
          rcases hlk : lookupEntry r.body "openpgp" with _ | m
          · exact ⟨{ s with getLog := s.getLog ++ [a] },
              by simp [fetch_keys_from_server, hget2, hlk], rfl⟩
          · exact ⟨{ s with getLog := s.getLog ++ [a],
                            store := putAscii w s.store m },
              by simp [fetch_keys_from_server, hget2, hlk], rfl⟩
        have hstep : refreshLoop cfg w (a :: rest) s = refreshLoop cfg w rest st := by
          simp [refreshLoop, ha, hfetch]
        have h2 := ih st
        refine ⟨by rw [hstep]; exact h2.1, ?_⟩
        rw [hstep, h2.2, hlog]
        simp [List.filter_cons, ha, List.append_assoc]

/-- C4: with a CA path, an always-answering directory and a store whose
public keys are all of the registered type, refresh_keys succeeds and
its GET log grows by exactly the distinct addresses of the locally
stored public keys other than the own address, a list without
duplicates, so each such address is fetched exactly once however many
records share it; when every stored public key is bound to the own
address, no fetch happens at all. -/
theorem refresh_keys_fetch_set (cfg : KMConfig) (w : World) (s : St)
    (p : String) (hca : cfg.caCertPath = some p)
    (hreg : ∀ k ∈ s.store, k.priv = false → k.ktype = KeyType.openpgp)
    (hok : ∀ a, ∃ r, w.server a = TransportResult.response r ∧
      (200 ≤ r.status ∧ r.status < 300) ∧
      pyStartswith r.contentType "application/json" = true) :
    (refresh_keys cfg w s).1 = Except.ok () ∧
    (refresh_keys cfg w s).2.getLog =
      s.getLog ++ (dedupFirst ((s.store.filter (fun k => k.priv == false)).map
        EncryptionKey.address)).filter (fun a => !(a == cfg.address)) ∧
    ((dedupFirst ((s.store.filter (fun k => k.priv == false)).map
        EncryptionKey.address)).filter (fun a => !(a == cfg.address))).Nodup ∧
    ((∀ k ∈ s.store, k.priv = false → k.address = cfg.address) →
      (refresh_keys cfg w s).2.getLog = s.getLog) := by
  have hall : (s.store.filter (fun k => k.priv == false)).all
      (fun k => wrapperMapContains k.ktype) = true := by
    rw [List.all_eq_true]
    intro k hk
    have hmem := List.mem_filter.mp hk
    have hpriv : k.priv = false := by simpa using hmem.2
    have := hreg k hmem.1 hpriv
    simp [wrapperMapContains, this]
  have hdb : get_all_keys_in_local_db s false =
      some (s.store.filter (fun k => k.priv == false)) := by
    simp only [get_all_keys_in_local_db]
    rw [hall]
    simp
  have hrk : refresh_keys cfg w s =
      refreshLoop cfg w (dedupFirst ((s.store.filter
        (fun k => k.priv == false)).map EncryptionKey.address)) s := by
    simp [refresh_keys, hdb]
  have hmain := refreshLoop_spec cfg w p hca hok
    (dedupFirst ((s.store.filter (fun k => k.priv == false)).map
      EncryptionKey.address)) s
  refine ⟨by rw [hrk]; exact hmain.1, by rw [hrk]; exact hmain.2,
    (dedupFirst_nodup _).filter _, ?_⟩
  intro hown
  rw [hrk, hmain.2]
  have hnil : (dedupFirst ((s.store.filter (fun k => k.priv == false)).map
      EncryptionKey.address)).filter (fun a => !(a == cfg.address)) = [] := by
    rw [List.filter_eq_nil_iff]
    intro a ha2
    have hmem := mem_dedupFirst _ a ha2
    obtain ⟨k, hk, hka⟩ := List.mem_map.mp hmem
    have hkf := List.mem_filter.mp hk
    have hko : k.address = cfg.address := hown k hkf.1 (by simpa using hkf.2)
    simp [← hka, hko]
  rw [hnil, List.append_nil]

/-- A second public key record sharing the alice address. -/
def keyPub2 : EncryptionKey :=
  { address := "alice@leap", keyData := "KEYBLOB2", priv := false,
    ktype := KeyType.openpgp }

/-- The own public key of the manager. -/
def keyMine : EncryptionKey :=
  { address := "me@leap", keyData := "MINE", priv := false,
    ktype := KeyType.openpgp }

/-- A store with a duplicated foreign address and the own address. -/
def sMulti : St := { store := [keyPub, keyPub2, keyMine], getLog := [], putLog := [] }

/-- Witness for C4: refreshing a store with two records for alice and
one for the own address succeeds, fetching alice once and the own
address never. -/
theorem refresh_keys_fetch_set_witness :
    (refresh_keys cfgT wT sMulti).1 = Except.ok () :=
  (refresh_keys_fetch_set cfgT wT sMulti "/ca.crt" rfl (by decide)
    (fun _ => ⟨respT, rfl, by decide, by decide⟩)).1
